import Mathlib

set_option maxRecDepth 10000

/-!
# Verification of the JWT authentication core of cs-brain-tracker

Shallow embedding of `src/middleware/auth.js` (token issuance, single-use
refresh-token rotation with device binding, token-binding middleware) and of
the auth routes in `src/api/routes/auth.js` (login / refresh / logout
handlers), together with proofs of the specified properties.

Conventions of the embedding:
* Machine time (`Date.now()`, `expiresAt`) is a `Nat` of milliseconds.
* `crypto.randomBytes(32).toString("hex")` is modelled by an explicit
  `entropy : String` parameter threaded into each issuing operation.
* MongoDB state (the `RefreshToken` collection) is a `List RefreshRecord`;
  `findOne` is first-match lookup, the unique index on `tokenHash` makes
  insertion of a duplicate hash fail, and `findOneAndUpdate` updates the
  first matching document in place.
* Thrown JS errors become `Except` error values; each operation also returns
  the store it leaves behind, so that partially-completed operations (e.g. a
  rotation that consumed the old record but failed while issuing) are
  representable.
-/

namespace CSBrain

/-! ## SHA-256 (the `crypto.createHash("sha256")...digest("hex")` used by `hashToken`) -/

/-- Truncating 32-bit addition. -/
def add32 (a b : Nat) : Nat := (a + b) % 4294967296

/-- 32-bit right rotation. -/
def rotr (n x : Nat) : Nat := ((x >>> n) ||| (x <<< (32 - n))) % 4294967296

/-- SHA-256 round constants (FIPS 180-4), as decimal naturals. -/
def sha256K : List Nat :=
  [1116352408, 1899447441, 3049323471, 3921009573, 961987163,
   1508970993, 2453635748, 2870763221, 3624381080, 310598401,
   607225278, 1426881987, 1925078388, 2162078206, 2614888103,
   3248222580, 3835390401, 4022224774, 264347078, 604807628,
   770255983, 1249150122, 1555081692, 1996064986, 2554220882,
   2821834349, 2952996808, 3210313671, 3336571891, 3584528711,
   113926993, 338241895, 666307205, 773529912, 1294757372,
   1396182291, 1695183700, 1986661051, 2177026350, 2456956037,
   2730485921, 2820302411, 3259730800, 3345764771, 3516065817,
   3600352804, 4094571909, 275423344, 430227734, 506948616,
   659060556, 883997877, 958139571, 1322822218, 1537002063,
   1747873779, 1955562222, 2024104815, 2227730452, 2361852424,
   2428436474, 2756734187, 3204031479, 3329325298]

/-- SHA-256 initial hash state, as decimal naturals. -/
def sha256H0 : List Nat :=
  [1779033703, 3144134277, 1013904242, 2773480762,
   1359893119, 2600822924, 528734635, 1541459225]

/-- Big-endian byte serialisation of `x` into `n` bytes. -/
def toBytesBE (n x : Nat) : List Nat :=
  (List.range n).map fun i => (x >>> ((n - 1 - i) * 8)) % 256

/-- SHA-256 message padding: append `0x80`, zeros, and the 64-bit bit length. -/
def sha256Pad (msg : List Nat) : List Nat :=
  msg ++ [0x80] ++ List.replicate ((120 - ((msg.length + 1) % 64)) % 64) 0
      ++ toBytesBE 8 (msg.length * 8)

/-- Split a byte list into 64-byte blocks (fuel-based structural recursion;
`fuel = l.length` always suffices since each step consumes at least one byte). -/
def chunks64Aux : Nat → List Nat → List (List Nat)
  | 0, _ => []
  | _ + 1, [] => []
  | fuel + 1, l => l.take 64 :: chunks64Aux fuel (l.drop 64)

/-- Split a byte list into 64-byte blocks. -/
def chunks64 (l : List Nat) : List (List Nat) :=
  chunks64Aux l.length l

/-- Big-endian 32-bit words of a 64-byte block. -/
def blockWords (b : List Nat) : List Nat :=
  (List.range 16).map fun i =>
    (b.getD (4 * i) 0) * 16777216 + (b.getD (4 * i + 1) 0) * 65536 +
    (b.getD (4 * i + 2) 0) * 256 + b.getD (4 * i + 3) 0

/-- One message-schedule extension step: push `W[i]` for `i = w.size`. -/
def schedStep (w : Array Nat) : Array Nat :=
  let i := w.size
  let s0 := (rotr 7 (w.getD (i - 15) 0)) ^^^ (rotr 18 (w.getD (i - 15) 0)) ^^^ ((w.getD (i - 15) 0) >>> 3)
  let s1 := (rotr 17 (w.getD (i - 2) 0)) ^^^ (rotr 19 (w.getD (i - 2) 0)) ^^^ ((w.getD (i - 2) 0) >>> 10)
  w.push (add32 (add32 (w.getD (i - 16) 0) s0) (add32 (w.getD (i - 7) 0) s1))

/-- Full 64-word message schedule of a block. -/
def schedule (b : List Nat) : Array Nat :=
  (List.range 48).foldl (fun w _ => schedStep w) (blockWords b).toArray

/-- Working state of the compression function. -/
structure Hash8 where
  a : Nat
  b : Nat
  c : Nat
  d : Nat
  e : Nat
  f : Nat
  g : Nat
  h : Nat

/-- One SHA-256 compression round. -/
def round (w : Array Nat) (st : Hash8) (i : Nat) : Hash8 :=
  let S1 := (rotr 6 st.e) ^^^ (rotr 11 st.e) ^^^ (rotr 25 st.e)
  let ch := (st.e &&& st.f) ^^^ ((st.e ^^^ 0xFFFFFFFF) &&& st.g)
  let t1 := add32 (add32 (add32 st.h S1) (add32 ch (sha256K.getD i 0))) (w.getD i 0)
  let S0 := (rotr 2 st.a) ^^^ (rotr 13 st.a) ^^^ (rotr 22 st.a)
  let maj := (st.a &&& st.b) ^^^ (st.a &&& st.c) ^^^ (st.b &&& st.c)
  let t2 := add32 S0 maj
  ⟨add32 t1 t2, st.a, st.b, st.c, add32 st.d t1, st.e, st.f, st.g⟩

/-- Process one 64-byte block, updating the 8-word chaining state. -/
def processBlock (hs : List Nat) (b : List Nat) : List Nat :=
  let w := schedule b
  let init : Hash8 := ⟨hs.getD 0 0, hs.getD 1 0, hs.getD 2 0, hs.getD 3 0,
                       hs.getD 4 0, hs.getD 5 0, hs.getD 6 0, hs.getD 7 0⟩
  let st := (List.range 64).foldl (round w) init
  [add32 (hs.getD 0 0) st.a, add32 (hs.getD 1 0) st.b, add32 (hs.getD 2 0) st.c,
   add32 (hs.getD 3 0) st.d, add32 (hs.getD 4 0) st.e, add32 (hs.getD 5 0) st.f,
   add32 (hs.getD 6 0) st.g, add32 (hs.getD 7 0) st.h]

/-- Lowercase hex digit. -/
def hexDigit (n : Nat) : Char :=
  if n < 10 then Char.ofNat (48 + n) else Char.ofNat (87 + n)

/-- Lowercase 8-digit hex rendering of a 32-bit word. -/
def wordHex (x : Nat) : List Char :=
  (List.range 8).map fun i => hexDigit ((x >>> ((7 - i) * 4)) % 16)

/-- SHA-256 digest of a byte list, rendered as lowercase hex. -/
def sha256Hex (msg : List Nat) : String :=
  let hs := (chunks64 (sha256Pad msg)).foldl processBlock sha256H0
  String.mk ((hs.map wordHex).flatten)

/-- UTF-8 encoding of a single code point. -/
def utf8Bytes (c : Nat) : List Nat :=
  if c < 0x80 then [c]
  else if c < 0x800 then [0xC0 ||| (c >>> 6), 0x80 ||| (c &&& 0x3F)]
  else if c < 0x10000 then
    [0xE0 ||| (c >>> 12), 0x80 ||| ((c >>> 6) &&& 0x3F), 0x80 ||| (c &&& 0x3F)]
  else
    [0xF0 ||| (c >>> 18), 0x80 ||| ((c >>> 12) &&& 0x3F),
     0x80 ||| ((c >>> 6) &&& 0x3F), 0x80 ||| (c &&& 0x3F)]

/-- UTF-8 bytes of a string. -/
def strBytes (s : String) : List Nat :=
  (s.data.map fun c => utf8Bytes c.toNat).flatten

/-- `hashToken` from `src/middleware/auth.js`: SHA-256 hash (hex) of the
provided token, used to avoid storing refresh tokens in plaintext. -/
def hashToken (token : String) : String :=
  sha256Hex (strBytes token)

/-! ## Data model: the `RefreshToken` Mongo collection (`src/models/refreshToken.js`) -/

/-- A persisted refresh-token document: `{user, tokenHash (unique), device,
expiresAt, consumed (default false)}`. `expiresAt` is a millisecond timestamp. -/
structure RefreshRecord where
  user : String
  tokenHash : String
  device : String
  expiresAt : Nat
  consumed : Bool
deriving DecidableEq, Repr

/-- The collection state. `findOne` is first-match lookup; the unique index on
`tokenHash` rejects insertion of a duplicate hash. -/
abbrev Store := List RefreshRecord

/-- `RefreshToken.findOne({ tokenHash })`. -/
def findOne (s : Store) (h : String) : Option RefreshRecord :=
  List.find? (fun r => r.tokenHash = h) s

/-- Does some document already carry this token hash? (the unique index). -/
def hashPresent (s : Store) (h : String) : Bool :=
  List.any s (fun r => r.tokenHash = h)

/-- `document.save()` on a brand-new document: fails (duplicate-key error) if
the unique `tokenHash` index is violated, otherwise appends. -/
def saveNew (s : Store) (r : RefreshRecord) : Option Store :=
  if hashPresent s r.tokenHash then none else some (s ++ [r])

/-- `existing.consumed = true; await existing.save()` — persist the consumed
flag on the (unique) document carrying this hash. -/
def markConsumed (s : Store) (h : String) : Store :=
  List.map (fun r => if r.tokenHash = h then { r with consumed := true } else r) s

/-! ## Fingerprints and tokens -/

/-- `req.fingerprint` is either a plain string or an object with a `hash`
field; the code normalises with
`typeof fingerprint === 'object' ? fingerprint.hash : fingerprint`. -/
inductive Fingerprint where
  | str (s : String)
  | obj (hash : String)
deriving DecidableEq, Repr

/-- The normalisation expression above. -/
def fpHash : Fingerprint → String
  | .str s => s
  | .obj h => h

/-- Configured issuer (`JWT_ISSUER` default). -/
def ISSUER : String := "https://cs-brain-tracker.local/"

/-- Configured audience (`JWT_AUDIENCE` default). -/
def AUDIENCE : String := "cs-brain-tracker-api"

/-- The signed access token, as its claim set (`jsonwebtoken.sign` payload plus
registered claims). `iat`/`exp` are in milliseconds of the issuing clock. -/
structure AccessToken where
  sub : String
  fp : String
  iss : String
  aud : String
  iat : Nat
  exp : Nat
deriving DecidableEq, Repr

/-- The `{ accessToken, refreshToken }` pair returned to the caller;
`refreshToken` is the raw (plaintext) refresh token. -/
structure TokenPair where
  accessToken : AccessToken
  refreshToken : String
deriving DecidableEq, Repr

/-! ## Token issuance: `generateTokens` (`src/middleware/auth.js` lines 68-99) -/

/-- Failure modes of `generateTokens`: the explicit
`throw new Error("User object must include an id field")`, and the MongoDB
duplicate-key error raised by `save()` when the unique `tokenHash` index is
violated. -/
inductive GenErr where
  | missingId
  | duplicateKey
deriving DecidableEq, Repr

/-- Fifteen minutes in milliseconds (`expiresIn: "15m"`). -/
def ACCESS_TTL : Nat := 15 * 60 * 1000

/-- Thirty days in milliseconds (`Date.now() + 30 * 24 * 60 * 60 * 1000`). -/
def REFRESH_TTL : Nat := 30 * 24 * 60 * 60 * 1000

/-- `generateTokens(user, fingerprint)`. `now` models `Date.now()` and
`entropy` models `crypto.randomBytes(32).toString("hex")`. Returns the result
together with the store left behind. -/
def generateTokens (userId : String) (fingerprint : Fingerprint) (now : Nat)
    (entropy : String) (s : Store) : Except GenErr TokenPair × Store :=
  if userId = "" then (.error .missingId, s)
  else
    let accessToken : AccessToken :=
      { sub := userId, fp := fpHash fingerprint, iss := ISSUER, aud := AUDIENCE,
        iat := now, exp := now + ACCESS_TTL }
    let rawRefresh := entropy
    let doc : RefreshRecord :=
      { user := userId, tokenHash := hashToken rawRefresh,
        device := fpHash fingerprint, expiresAt := now + REFRESH_TTL,
        consumed := false }
    match saveNew s doc with
    | none => (.error .duplicateKey, s)
    | some s' => (.ok { accessToken := accessToken, refreshToken := rawRefresh }, s')

/-! ## Rotation: `rotateRefreshToken` (`src/middleware/auth.js` lines 109-128) -/

/-- Failure modes of `rotateRefreshToken`: the two explicit throws
(`"Invalid refresh token"`, `"Refresh token expired"`) plus a propagated
`generateTokens` error. -/
inductive RotErr where
  | invalidToken
  | expired
  | issuance (e : GenErr)
deriving DecidableEq, Repr

/-- `rotateRefreshToken(rawRefreshToken, fingerprint)`: hash and look up,
reject invalid/consumed/device-mismatched, reject expired, mark consumed,
then issue a new pair. Returns the result and the store left behind. -/
def rotateRefreshToken (rawRefreshToken : String) (fingerprint : Fingerprint)
    (now : Nat) (entropy : String) (s : Store) : Except RotErr TokenPair × Store :=
  let tokenHash := hashToken rawRefreshToken
  let existing := findOne s tokenHash
  let deviceHash := fpHash fingerprint
  match existing with
  | none => (.error .invalidToken, s)
  | some ex =>
    if ex.consumed then (.error .invalidToken, s)
    else if ex.device ≠ deviceHash then (.error .invalidToken, s)
    else if ex.expiresAt < now then (.error .expired, s)
    else
      let s1 := markConsumed s tokenHash
      match generateTokens ex.user fingerprint now entropy s1 with
      | (.ok pair, s2) => (.ok pair, s2)
      | (.error e, s2) => (.error (.issuance e), s2)


/-! ## Route handlers (`src/api/routes/auth.js`) -/

/-- Refresh-token format check at the refresh route:
`/^[a-f0-9]{64}$/i.test(refreshToken)`. -/
def isHex64 (s : String) : Bool :=
  s.length = 64 && s.data.all fun c =>
    (Char.ofNat 48 ≤ c && c ≤ Char.ofNat 57) ||
    (Char.ofNat 97 ≤ c && c ≤ Char.ofNat 102) ||
    (Char.ofNat 65 ≤ c && c ≤ Char.ofNat 70)

/-- An HTTP response as the handler model sees it: a status code plus, on 200,
the issued token pair. -/
structure HttpResult where
  status : Nat
  body : Option TokenPair
deriving DecidableEq, Repr

/-- `POST /api/v1/auth/refresh` (lines 56-82 of `src/api/routes/auth.js`):
require a present token, require the 64-hex format (before any store lookup),
default the fingerprint with `req.fingerprint || "unknown"`, rotate, and map
`Invalid refresh token` / `expired` errors to a 400 response; any other thrown
error reaches the error handler as a 500. A missing/falsy body field is the
empty string. -/
def refreshHandler (refreshToken : String) (reqFingerprint : Option Fingerprint)
    (now : Nat) (entropy : String) (s : Store) : HttpResult × Store :=
  if refreshToken = "" then ({ status := 400, body := none }, s)
  else if ¬ isHex64 refreshToken then ({ status := 400, body := none }, s)
  else
    let fingerprint := reqFingerprint.getD (.str "unknown")
    match rotateRefreshToken refreshToken fingerprint now entropy s with
    | (.ok pair, s2) => ({ status := 200, body := some pair }, s2)
    | (.error .invalidToken, s2) => ({ status := 400, body := none }, s2)
    | (.error .expired, s2) => ({ status := 400, body := none }, s2)
    | (.error (.issuance _), s2) => ({ status := 500, body := none }, s2)

/-- The issuing tail of `POST /api/v1/auth/login` (lines 43-45 of
`src/api/routes/auth.js`), entered once credentials have been validated:
`const fingerprint = req.fingerprint || req.body.fingerprint || "unknown";`
followed by `generateTokens({ id: user._id.toString() }, fingerprint)`. -/
def loginIssue (userId : String) (reqFingerprint bodyFingerprint : Option Fingerprint)
    (now : Nat) (entropy : String) (s : Store) : Except GenErr TokenPair × Store :=
  let fingerprint := reqFingerprint.getD (bodyFingerprint.getD (.str "unknown"))
  generateTokens userId fingerprint now entropy s

/-- `findOneAndUpdate({ tokenHash, consumed: false }, { consumed: true })`:
atomically update the first document matching both conditions; `none` if no
document matches. -/
def consumeIfUnconsumed : Store → String → Option Store
  | [], _ => none
  | r :: rest, h =>
    if r.tokenHash = h && r.consumed = false then some ({ r with consumed := true } :: rest)
    else (consumeIfUnconsumed rest h).map (r :: ·)

/-- `POST /api/v1/auth/logout` (lines 89-121 of `src/api/routes/auth.js`):
hash the presented token and conditionally mark it consumed; 400 when the
token is missing or no unconsumed match exists. -/
def logoutHandler (refreshToken : String) (s : Store) : Nat × Store :=
  if refreshToken = "" then (400, s)
  else
    match consumeIfUnconsumed s (hashToken refreshToken) with
    | none => (400, s)
    | some s2 => (200, s2)

/-! ## Token-binding middleware: `enforceTokenBinding` (lines 166-179) -/

/-- What the binding middleware does with a request. -/
inductive BindingOutcome where
  | reject401
  | next
deriving DecidableEq, Repr

/-- JS truthiness of a possibly-absent string (`undefined`/`null`/`""` are
falsy). -/
def truthy : Option String → Bool
  | none => false
  | some s => s ≠ ""

/-- `enforceTokenBinding(req, res, next)`: with
`tokenFp = req.user?.fp` and
`deviceFp = req.fingerprint ? (object ? .hash : itself) : null`,
respond 401 `Token binding mismatch` when `tokenFp && deviceFp && tokenFp !== deviceFp`,
otherwise call `next()`. -/
def enforceTokenBinding (userFp : Option String) (reqFingerprint : Option Fingerprint) :
    BindingOutcome :=
  let tokenFp := userFp
  let deviceFp := reqFingerprint.map fpHash
  if truthy tokenFp && truthy deviceFp &&
      !(tokenFp.getD "" = deviceFp.getD "") then .reject401
  else .next


/-! ## System evolution

The writers of the `RefreshToken` collection in this repository are token
issuance (`generateTokens`, also reached through the login and OAuth routes),
rotation (`rotateRefreshToken`, reached through the refresh route) and the
logout route's conditional update. `SysStep` is one such operation, with
arbitrary arguments; `Reachable` closes it reflexively-transitively. -/

/-- One application of a store-writing operation of the repository. -/
inductive SysStep : Store → Store → Prop where
  | gen (userId : String) (fingerprint : Fingerprint) (now : Nat) (entropy : String)
      (s : Store) : SysStep s (generateTokens userId fingerprint now entropy s).2
  | rot (raw : String) (fingerprint : Fingerprint) (now : Nat) (entropy : String)
      (s : Store) : SysStep s (rotateRefreshToken raw fingerprint now entropy s).2
  | logout (raw : String) (s : Store) : SysStep s (logoutHandler raw s).2

/-- Store states reachable by any sequence of the repository's operations. -/
def Reachable : Store → Store → Prop := Relation.ReflTransGen SysStep

/-- The record that `findOne` returns for hash `h` is consumed. Once this
holds, a rotation presenting a token hashing to `h` must fail. -/
def consumedLocked (s : Store) (h : String) : Prop :=
  ∃ r, findOne s h = some r ∧ r.consumed = true

/-! ## Interleaved execution of two concurrent rotation calls

`rotateRefreshToken` suspends at each `await`: the `findOne` lookup, the
`existing.save()` write, and the `generateTokens` call (itself a read, a
write and a return). `RaceStep` interleaves two copies of the function, run
against the shared collection with the same raw refresh token; each local
step is one segment between suspension points, exactly as the source orders
them: (1) look up and run the validation checks, (2) persist `consumed =
true` on the looked-up document, (3) issue the new pair. -/

/-- Program counter of one in-flight `rotateRefreshToken(T, fp)` call. -/
inductive RotPC where
  | start
  | validated (userId : String)
  | marked (userId : String)
  | finished (ok : Bool)
deriving DecidableEq, Repr

/-- Two in-flight rotation calls over the shared collection. -/
structure RaceState where
  store : Store
  pcA : RotPC
  pcB : RotPC
deriving DecidableEq, Repr

/-- The validation phase of `rotateRefreshToken` (lines 110-119): everything
from the lookup to the two throws, before any write. -/
def rotValidate (raw : String) (fingerprint : Fingerprint) (now : Nat)
    (s : Store) : RotPC :=
  match findOne s (hashToken raw) with
  | none => .finished false
  | some ex =>
    if ex.consumed then .finished false
    else if ex.device ≠ fpHash fingerprint then .finished false
    else if ex.expiresAt < now then .finished false
    else .validated ex.user

/-- One local step of one of the two calls, both presenting raw token `raw`
and fingerprint `fp` at time `now`; call A issues with entropy `eA`, call B
with `eB`. -/
inductive RaceStep (raw : String) (fp : Fingerprint) (now : Nat) (eA eB : String) :
    RaceState → RaceState → Prop where
  | readA (st : RaceState) : st.pcA = .start →
      RaceStep raw fp now eA eB st { st with pcA := rotValidate raw fp now st.store }
  | writeA (st : RaceState) (u : String) : st.pcA = .validated u →
      RaceStep raw fp now eA eB st
        { st with store := markConsumed st.store (hashToken raw), pcA := .marked u }
  | issueA (st : RaceState) (u : String) : st.pcA = .marked u →
      RaceStep raw fp now eA eB st
        { st with store := (generateTokens u fp now eA st.store).2,
                  pcA := .finished (generateTokens u fp now eA st.store).1.toBool }
  | readB (st : RaceState) : st.pcB = .start →
      RaceStep raw fp now eA eB st { st with pcB := rotValidate raw fp now st.store }
  | writeB (st : RaceState) (u : String) : st.pcB = .validated u →
      RaceStep raw fp now eA eB st
        { st with store := markConsumed st.store (hashToken raw), pcB := .marked u }
  | issueB (st : RaceState) (u : String) : st.pcB = .marked u →
      RaceStep raw fp now eA eB st
        { st with store := (generateTokens u fp now eB st.store).2,
                  pcB := .finished (generateTokens u fp now eB st.store).1.toBool }


/-! ## Basic lemmas about the store operations -/

theorem findOne_some_hash {s : Store} {h : String} {r : RefreshRecord}
    (hf : findOne s h = some r) : r.tokenHash = h := by
  have := List.find?_some hf
  simpa using this

theorem findOne_append {s t : Store} {h : String} :
    findOne (s ++ t) h = (findOne s h).or (findOne t h) := by
  simp [findOne, List.find?_append]

theorem findOne_append_left {s t : Store} {h : String} {r : RefreshRecord}
    (hf : findOne s h = some r) : findOne (s ++ t) h = some r := by
  simp [findOne_append, findOne] at hf ⊢
  simp [hf]

theorem hashPresent_false_iff {s : Store} {h : String} :
    hashPresent s h = false ↔ findOne s h = none := by
  simp [hashPresent, findOne, List.find?_eq_none, List.any_eq_false]

/-- The per-document update performed by `markConsumed`. -/
theorem findOne_markConsumed (s : Store) (h h' : String) :
    findOne (markConsumed s h') h =
      (findOne s h).map
        (fun r => if r.tokenHash = h' then { r with consumed := true } else r) := by
  unfold markConsumed findOne
  rw [List.find?_map]
  have hfun : ((fun r : RefreshRecord => decide (r.tokenHash = h)) ∘
      fun r => if r.tokenHash = h' then { r with consumed := true } else r) =
      fun r : RefreshRecord => decide (r.tokenHash = h) := by
    funext r
    by_cases hr : r.tokenHash = h' <;> simp [hr]
  rw [hfun]

theorem hashPresent_markConsumed (s : Store) (h h' : String) :
    hashPresent (markConsumed s h') h = hashPresent s h := by
  unfold markConsumed hashPresent
  rw [List.any_map]
  have hfun : ((fun r : RefreshRecord => decide (r.tokenHash = h)) ∘
      fun r => if r.tokenHash = h' then { r with consumed := true } else r) =
      fun r : RefreshRecord => decide (r.tokenHash = h) := by
    funext r
    by_cases hr : r.tokenHash = h' <;> simp [hr]
  rw [hfun]

/-- `consumeIfUnconsumed` only raises `consumed` flags; it never changes a
hash, removes a document, or resets a flag, so a consumed first match stays a
consumed first match. -/
theorem consumeIfUnconsumed_locked {s s' : Store} {h' : String}
    (hc : consumeIfUnconsumed s h' = some s') {h : String}
    (hl : consumedLocked s h) : consumedLocked s' h := by
  induction s generalizing s' with
  | nil => simp [consumeIfUnconsumed] at hc
  | cons a rest ih =>
    obtain ⟨r, hr, hcons⟩ := hl
    by_cases hcond : a.tokenHash = h' && a.consumed = false
    · simp only [consumeIfUnconsumed, hcond, if_true] at hc
      obtain rfl := Option.some.injEq _ _ ▸ hc
      by_cases hah : a.tokenHash = h
      · exfalso
        have hra : a = r := by
          simpa [findOne, List.find?_cons_of_pos, hah] using hr
        rw [← hra] at hcons
        simp [hcons] at hcond
      · refine ⟨r, ?_, hcons⟩
        have hr' : findOne (rest : Store) h = some r := by
          simpa [findOne, List.find?_cons_of_neg, hah] using hr
        simpa [findOne, List.find?_cons_of_neg, hah] using hr'
    · simp only [consumeIfUnconsumed, hcond, if_false] at hc
      obtain ⟨t, ht, rfl⟩ := Option.map_eq_some'.mp hc
      by_cases hah : a.tokenHash = h
      · have hra : a = r := by
          simpa [findOne, List.find?_cons_of_pos, hah] using hr
        exact ⟨a, by simp [findOne, List.find?_cons_of_pos, hah], hra ▸ hcons⟩
      · have hr' : findOne (rest : Store) h = some r := by
          simpa [findOne, List.find?_cons_of_neg, hah] using hr
        obtain ⟨r₂, hr₂, hc₂⟩ := ih ht ⟨r, hr', hcons⟩
        exact ⟨r₂, by simpa [findOne, List.find?_cons_of_neg, hah] using hr₂, hc₂⟩


/-! ## Shape lemmas for `generateTokens` and `rotateRefreshToken` -/

/-- The document `generateTokens` persists. -/
def issuedRecord (userId : String) (fingerprint : Fingerprint) (now : Nat)
    (entropy : String) : RefreshRecord :=
  { user := userId, tokenHash := hashToken entropy,
    device := fpHash fingerprint, expiresAt := now + REFRESH_TTL,
    consumed := false }

/-- The access token `generateTokens` signs. -/
def issuedAccess (userId : String) (fingerprint : Fingerprint) (now : Nat) :
    AccessToken :=
  { sub := userId, fp := fpHash fingerprint, iss := ISSUER, aud := AUDIENCE,
    iat := now, exp := now + ACCESS_TTL }

theorem generateTokens_ok (userId : String) (f : Fingerprint) (now : Nat)
    (entropy : String) (s : Store) (h1 : userId ≠ "")
    (h2 : hashPresent s (hashToken entropy) = false) :
    generateTokens userId f now entropy s =
      (.ok { accessToken := issuedAccess userId f now, refreshToken := entropy },
       s ++ [issuedRecord userId f now entropy]) := by
  simp [generateTokens, saveNew, h1, h2, issuedAccess, issuedRecord]

theorem generateTokens_ok_inv {userId : String} {f : Fingerprint} {now : Nat}
    {entropy : String} {s : Store} {pair : TokenPair}
    (h : (generateTokens userId f now entropy s).1 = .ok pair) :
    userId ≠ "" ∧ hashPresent s (hashToken entropy) = false ∧
      pair = { accessToken := issuedAccess userId f now, refreshToken := entropy } ∧
      (generateTokens userId f now entropy s).2 = s ++ [issuedRecord userId f now entropy] := by
  by_cases h1 : userId = ""
  · simp [generateTokens, h1] at h
  by_cases h2 : hashPresent s (hashToken entropy) = true
  · simp [generateTokens, saveNew, h1, h2] at h
  rw [generateTokens_ok userId f now entropy s h1 (by simpa using h2)] at h ⊢
  simp at h
  exact ⟨h1, by simpa using h2, h.symm, by simp⟩

/-- On any failure, `generateTokens` has not written. -/
theorem generateTokens_error_store {userId : String} {f : Fingerprint} {now : Nat}
    {entropy : String} {s : Store} {e : GenErr}
    (h : (generateTokens userId f now entropy s).1 = .error e) :
    (generateTokens userId f now entropy s).2 = s := by
  by_cases h1 : userId = ""
  · simp [generateTokens, h1]
  by_cases h2 : hashPresent s (hashToken entropy) = true
  · simp [generateTokens, saveNew, h1, h2]
  · rw [generateTokens_ok userId f now entropy s h1 (by simpa using h2)] at h
    simp at h

/-- The three possible resulting stores of `generateTokens`. -/
theorem generateTokens_snd (userId : String) (f : Fingerprint) (now : Nat)
    (entropy : String) (s : Store) :
    (generateTokens userId f now entropy s).2 = s ∨
      (generateTokens userId f now entropy s).2 =
        s ++ [issuedRecord userId f now entropy] := by
  by_cases h1 : userId = ""
  · left; simp [generateTokens, h1]
  by_cases h2 : hashPresent s (hashToken entropy) = true
  · left; simp [generateTokens, saveNew, h1, h2]
  · right
    rw [generateTokens_ok userId f now entropy s h1 (by simpa using h2)]

/-- Unfolding of a successful rotation. -/
theorem rotate_ok_inv {raw : String} {f : Fingerprint} {now : Nat}
    {entropy : String} {s : Store} {pair : TokenPair} {s' : Store}
    (h : rotateRefreshToken raw f now entropy s = (.ok pair, s')) :
    ∃ ex, findOne s (hashToken raw) = some ex ∧ ex.consumed = false ∧
      ex.device = fpHash f ∧ ¬ ex.expiresAt < now ∧
      generateTokens ex.user f now entropy (markConsumed s (hashToken raw)) =
        (.ok pair, s') := by
  unfold rotateRefreshToken at h
  rcases hf : findOne s (hashToken raw) with _ | ex
  · simp [hf] at h
  · simp only [hf] at h
    by_cases hc : ex.consumed
    · simp [hc] at h
    by_cases hd : ex.device = fpHash f
    · by_cases he : ex.expiresAt < now
      · simp [hc, hd, he] at h
      · refine ⟨ex, rfl, by simpa using hc, hd, he, ?_⟩
        simp only [hc] at h
        simp [hd, he] at h
        rcases hg : generateTokens ex.user f now entropy (markConsumed s (hashToken raw))
          with ⟨res, s2⟩
        rcases res with e | p <;> rw [hg] at h <;> simp at h
        obtain ⟨h1, h2⟩ := h
        simp [h1, h2]
    · simp [hc, hd] at h


/-- A rotation whose lookup finds a consumed document fails with the
`Invalid refresh token` error, whatever the fingerprint, clock or entropy. -/
theorem rotate_locked_fails (raw : String) (f : Fingerprint) (now : Nat)
    (entropy : String) (s : Store)
    (hl : consumedLocked s (hashToken raw)) :
    (rotateRefreshToken raw f now entropy s).1 = .error .invalidToken := by
  obtain ⟨r, hr, hc⟩ := hl
  unfold rotateRefreshToken
  simp [hr, hc]

/-- The stores a rotation can leave behind: untouched, consumed-only (when
issuing the new pair failed after the consume), or consumed plus one new
document. -/
theorem rotate_snd (raw : String) (f : Fingerprint) (now : Nat)
    (entropy : String) (s : Store) :
    (rotateRefreshToken raw f now entropy s).2 = s ∨
      (rotateRefreshToken raw f now entropy s).2 = markConsumed s (hashToken raw) ∨
      ∃ newr, (rotateRefreshToken raw f now entropy s).2 =
        markConsumed s (hashToken raw) ++ [newr] := by
  unfold rotateRefreshToken
  rcases hf : findOne s (hashToken raw) with _ | ex
  · left; simp [hf]
  · simp only [hf]
    by_cases hc : ex.consumed
    · left; simp [hc]
    by_cases hd : ex.device = fpHash f
    · by_cases he : ex.expiresAt < now
      · left; simp [hc, hd, he]
      · simp only [hc, Bool.false_eq_true, if_false]
        simp only [hd, ne_eq, not_true_eq_false, if_false, he, if_true]
        rcases generateTokens_snd ex.user f now entropy (markConsumed s (hashToken raw)) with hg | hg
        · right; left
          rcases hge : generateTokens ex.user f now entropy (markConsumed s (hashToken raw))
            with ⟨res, s2⟩
          rw [hge] at hg
          rcases res with e | p <;> simpa using hg
        · right; right
          refine ⟨issuedRecord ex.user f now entropy, ?_⟩
          rcases hge : generateTokens ex.user f now entropy (markConsumed s (hashToken raw))
            with ⟨res, s2⟩
          rw [hge] at hg
          rcases res with e | p <;> simpa using hg
    · left; simp [hc, hd]

/-- `markConsumed` preserves a consumed first match (for any hash). -/
theorem consumedLocked_markConsumed {s : Store} {h : String} (h' : String)
    (hl : consumedLocked s h) : consumedLocked (markConsumed s h') h := by
  obtain ⟨r, hr, hc⟩ := hl
  refine ⟨if r.tokenHash = h' then { r with consumed := true } else r, ?_, ?_⟩
  · rw [findOne_markConsumed, hr]; rfl
  · by_cases hrh : r.tokenHash = h' <;> simp [hrh, hc]

/-- Appending new documents preserves a consumed first match. -/
theorem consumedLocked_append {s : Store} {h : String} (t : Store)
    (hl : consumedLocked s h) : consumedLocked (s ++ t) h := by
  obtain ⟨r, hr, hc⟩ := hl
  exact ⟨r, findOne_append_left hr, hc⟩

/-- Every store-writing operation of the repository preserves a consumed
first match. -/
theorem sysStep_preserves_locked {s s' : Store} (hs : SysStep s s') {h : String}
    (hl : consumedLocked s h) : consumedLocked s' h := by
  cases hs with
  | gen userId f now entropy s =>
    rcases generateTokens_snd userId f now entropy s with hg | hg <;> rw [hg]
    · exact hl
    · exact consumedLocked_append _ hl
  | rot raw f now entropy s =>
    rcases rotate_snd raw f now entropy s with hg | hg | ⟨newr, hg⟩ <;> rw [hg]
    · exact hl
    · exact consumedLocked_markConsumed _ hl
    · exact consumedLocked_append _ (consumedLocked_markConsumed _ hl)
  | logout raw s =>
    unfold logoutHandler
    by_cases hraw : raw = ""
    · simpa [hraw] using hl
    · simp only [hraw, if_false]
      rcases hc : consumeIfUnconsumed s (hashToken raw) with _ | s2
      · simpa using hl
      · simpa using consumeIfUnconsumed_locked hc hl

/-- Reachability preserves a consumed first match. -/
theorem reachable_preserves_locked {s s' : Store} (hr : Reachable s s')
    {h : String} (hl : consumedLocked s h) : consumedLocked s' h := by
  induction hr with
  | refl => exact hl
  | tail _ hstep ih => exact sysStep_preserves_locked hstep ih

/-- Marking the looked-up document consumed locks its hash. -/
theorem markConsumed_locks {s : Store} {h : String} {ex : RefreshRecord}
    (hf : findOne s h = some ex) : consumedLocked (markConsumed s h) h := by
  have hth := findOne_some_hash hf
  refine ⟨{ ex with consumed := true }, ?_, rfl⟩
  rw [findOne_markConsumed, hf]
  simp [hth]

/-- A successful rotation leaves the presented token's document consumed. -/
theorem rotate_ok_locked {raw : String} {f : Fingerprint} {now : Nat}
    {entropy : String} {s : Store} {pair : TokenPair} {s' : Store}
    (h : rotateRefreshToken raw f now entropy s = (.ok pair, s')) :
    consumedLocked s' (hashToken raw) := by
  obtain ⟨ex, hf, _, _, _, hgen⟩ := rotate_ok_inv h
  have h1 : (generateTokens ex.user f now entropy (markConsumed s (hashToken raw))).1 = .ok pair := by
    rw [hgen]
  obtain ⟨_, _, _, hsnd⟩ := generateTokens_ok_inv h1
  rw [hgen] at hsnd
  simp only at hsnd
  rw [hsnd]
  exact consumedLocked_append _ (markConsumed_locks hf)


/-- Decidable equality for `Except`, so concrete runs can be checked by
`decide`. -/
instance {e a : Type} [DecidableEq e] [DecidableEq a] : DecidableEq (Except e a) := fun x y =>
  match x, y with
  | .ok v, .ok w =>
    if h : v = w then .isTrue (by rw [h]) else .isFalse (by intro hc; cases hc; exact h rfl)
  | .error v, .error w =>
    if h : v = w then .isTrue (by rw [h]) else .isFalse (by intro hc; cases hc; exact h rfl)
  | .ok _, .error _ => .isFalse (by intro hc; cases hc)
  | .error _, .ok _ => .isFalse (by intro hc; cases hc)

/-- C1. Single-use rotation: once `rotate(T, fp)` has succeeded — the record
is marked `consumed = true` and that change is persisted inside the successful
call — every later `rotate` presenting the same raw token `T`, with the same
or a different fingerprint, after any further operations on the store, fails
(with the `Invalid refresh token` error). -/
theorem single_use_rotation (T : String) (fp : Fingerprint) (now : Nat)
    (entropy : String) (s s' s'' : Store) (pair : TokenPair)
    (hrot : rotateRefreshToken T fp now entropy s = (.ok pair, s'))
    (hreach : Reachable s' s'')
    (fp2 : Fingerprint) (now2 : Nat) (entropy2 : String) :
    (rotateRefreshToken T fp2 now2 entropy2 s'').1 = .error .invalidToken :=
  rotate_locked_fails T fp2 now2 entropy2 s''
    (reachable_preserves_locked hreach (rotate_ok_locked hrot))

/-- Concrete instantiation of `single_use_rotation`: a store holding one
fresh record for raw token `"tok"` bound to device `"dev"`; the first
rotation succeeds, and replaying `"tok"` against the resulting store — even
with a different fingerprint, clock and entropy — fails. -/
theorem single_use_rotation_witness :
    (rotateRefreshToken "tok" (.obj "dev2") 60 "e2"
      [⟨"u1", hashToken "tok", "dev", 100, true⟩,
       ⟨"u1", hashToken "e1", "dev", 50 + REFRESH_TTL, false⟩]).1
      = .error .invalidToken := by
  have h : rotateRefreshToken "tok" (.str "dev") 50 "e1"
      [⟨"u1", hashToken "tok", "dev", 100, false⟩] =
      (.ok ⟨⟨"u1", "dev", ISSUER, AUDIENCE, 50, 50 + ACCESS_TTL⟩, "e1"⟩,
       [⟨"u1", hashToken "tok", "dev", 100, true⟩,
        ⟨"u1", hashToken "e1", "dev", 50 + REFRESH_TTL, false⟩]) := by decide
  exact single_use_rotation "tok" (.str "dev") 50 "e1" _ _ _ _ h
    Relation.ReflTransGen.refl (.obj "dev2") 60 "e2"


/-- C3. Failed-rotation atomicity: a rotation attempt that fails with the
`Invalid refresh token` or `Refresh token expired` condition — both detected
before the mark-consumed write — leaves the store exactly as it was: no new
document, and the looked-up document (with its `consumed` flag) untouched. -/
theorem failed_rotation_atomicity (raw : String) (f : Fingerprint) (now : Nat)
    (entropy : String) (s : Store)
    (hfail : (rotateRefreshToken raw f now entropy s).1 = .error .invalidToken ∨
             (rotateRefreshToken raw f now entropy s).1 = .error .expired) :
    (rotateRefreshToken raw f now entropy s).2 = s := by
  unfold rotateRefreshToken at hfail ⊢
  rcases hf : findOne s (hashToken raw) with _ | ex
  · simp [hf]
  · simp only [hf] at hfail ⊢
    by_cases hc : ex.consumed
    · simp [hc]
    by_cases hd : ex.device = fpHash f
    · by_cases he : ex.expiresAt < now
      · simp [hc, hd, he]
      · exfalso
        simp only [hc, Bool.false_eq_true, if_false, hd, ne_eq, not_true_eq_false,
          he, if_true] at hfail
        rcases hge : generateTokens ex.user f now entropy (markConsumed s (hashToken raw))
          with ⟨res, s2⟩
        rw [hge] at hfail
        rcases res with e | p <;> simp at hfail
    · simp [hc, hd]

/-- Concrete instantiation of `failed_rotation_atomicity`: rotating an
expired record fails and leaves the store unchanged. -/
theorem failed_rotation_atomicity_witness :
    (rotateRefreshToken "tok" (.str "dev") 200 "e1"
      [⟨"u1", hashToken "tok", "dev", 100, false⟩]).2 =
      [⟨"u1", hashToken "tok", "dev", 100, false⟩] :=
  failed_rotation_atomicity "tok" (.str "dev") 200 "e1"
    [⟨"u1", hashToken "tok", "dev", 100, false⟩] (Or.inr (by decide))

/-- C8. Token lifetimes: every issued access token expires exactly 15 minutes
(in milliseconds) after its issuance instant, and the persisted refresh
document expires exactly 30 days after it; both offsets are the literal
constants of `generateTokens`, taken from no configuration input. -/
theorem token_lifetimes (userId : String) (f : Fingerprint) (now : Nat)
    (entropy : String) (s : Store) (pair : TokenPair)
    (h : (generateTokens userId f now entropy s).1 = .ok pair) :
    pair.accessToken.iat = now ∧
    pair.accessToken.exp = pair.accessToken.iat + 15 * 60 * 1000 ∧
    (generateTokens userId f now entropy s).2 =
      s ++ [issuedRecord userId f now entropy] ∧
    (issuedRecord userId f now entropy).expiresAt = now + 30 * 24 * 60 * 60 * 1000 := by
  obtain ⟨_, _, hpair, hsnd⟩ := generateTokens_ok_inv h
  subst hpair
  exact ⟨rfl, rfl, hsnd, rfl⟩

/-- Concrete instantiation of `token_lifetimes` at time 1000. -/
theorem token_lifetimes_witness :
    ({ sub := "u1", fp := "dev", iss := ISSUER, aud := AUDIENCE, iat := 1000,
       exp := 1000 + ACCESS_TTL : AccessToken }).exp = 1000 + 15 * 60 * 1000 ∧
    (issuedRecord "u1" (.str "dev") 1000 "e1").expiresAt = 1000 + 30 * 24 * 60 * 60 * 1000 := by
  have h : (generateTokens "u1" (.str "dev") 1000 "e1" []).1 =
      .ok ⟨⟨"u1", "dev", ISSUER, AUDIENCE, 1000, 1000 + ACCESS_TTL⟩, "e1"⟩ := by decide
  obtain ⟨h1, h2, h3, h4⟩ := token_lifetimes "u1" (.str "dev") 1000 "e1" [] _ h
  exact ⟨h2, h4⟩


/-- Constructive success case of `rotateRefreshToken`: a found, unconsumed,
device-matching, unexpired record rotates into a new pair (when the fresh
entropy does not collide and the owner id is nonempty). -/
theorem rotate_ok {raw : String} {f : Fingerprint} {now : Nat} {entropy : String}
    {s : Store} {ex : RefreshRecord}
    (hf : findOne s (hashToken raw) = some ex) (hc : ex.consumed = false)
    (hd : ex.device = fpHash f) (he : ¬ ex.expiresAt < now) (hu : ex.user ≠ "")
    (hfresh : hashPresent (markConsumed s (hashToken raw)) (hashToken entropy) = false) :
    rotateRefreshToken raw f now entropy s =
      (.ok { accessToken := issuedAccess ex.user f now, refreshToken := entropy },
       markConsumed s (hashToken raw) ++ [issuedRecord ex.user f now entropy]) := by
  unfold rotateRefreshToken
  simp only [hf]
  rw [generateTokens_ok ex.user f now entropy (markConsumed s (hashToken raw)) hu hfresh]
  simp [hc, hd, he]

/-- An `isHex64` token is 64 characters long, hence not the empty string. -/
theorem isHex64_ne_empty {rt : String} (h : isHex64 rt = true) : rt ≠ "" := by
  intro he
  subst he
  simp [isHex64] at h

/-- C4. Hash-only persistence: a successful `generateTokens` call appends
exactly one document; its `tokenHash` field is the SHA-256 hash of the raw
refresh token handed back to the caller, and — whenever the raw token is a
fresh value distinct from the call's inputs and from its own hash — no
persisted string field of the document equals the raw token. -/
theorem hash_only_persistence (userId : String) (f : Fingerprint) (now : Nat)
    (entropy : String) (s : Store) (pair : TokenPair)
    (h : (generateTokens userId f now entropy s).1 = .ok pair)
    (hfix : hashToken pair.refreshToken ≠ pair.refreshToken)
    (hfp : fpHash f ≠ pair.refreshToken)
    (hid : userId ≠ pair.refreshToken) :
    pair.refreshToken = entropy ∧
    ∃ newr, (generateTokens userId f now entropy s).2 = s ++ [newr] ∧
      newr.tokenHash = hashToken pair.refreshToken ∧
      newr.tokenHash ≠ pair.refreshToken ∧
      newr.user ≠ pair.refreshToken ∧
      newr.device ≠ pair.refreshToken := by
  obtain ⟨h1, h2, hpair, hsnd⟩ := generateTokens_ok_inv h
  subst hpair
  refine ⟨rfl, issuedRecord userId f now entropy, hsnd, rfl, ?_, ?_, ?_⟩
  · exact hfix
  · exact hid
  · exact hfp

/-- Concrete instantiation of `hash_only_persistence`. -/
theorem hash_only_persistence_witness :
    ∃ newr, (generateTokens "u1" (.str "dev") 0 "e1" []).2 = [] ++ [newr] ∧
      newr.tokenHash = hashToken "e1" ∧ newr.tokenHash ≠ "e1" ∧
      newr.user ≠ "e1" ∧ newr.device ≠ "e1" :=
  (hash_only_persistence "u1" (.str "dev") 0 "e1" []
    ⟨⟨"u1", "dev", ISSUER, AUDIENCE, 0, 0 + ACCESS_TTL⟩, "e1"⟩
    (by decide) (by decide) (by decide) (by decide)).2

/-- C5. Binding Enforcer: when both the token's `fp` claim and the request
fingerprint are present (JS-truthy) and differ, the request is rejected with
the 401 response; when either is absent (or falsy), the check is skipped and
the request proceeds to the next handler. -/
theorem binding_enforcer_behaviour (userFp : Option String) (reqFp : Option Fingerprint) :
    (truthy userFp = true → truthy (reqFp.map fpHash) = true →
      userFp.getD "" ≠ (reqFp.map fpHash).getD "" →
      enforceTokenBinding userFp reqFp = .reject401) ∧
    (truthy userFp = false ∨ truthy (reqFp.map fpHash) = false →
      enforceTokenBinding userFp reqFp = .next) := by
  constructor
  · intro h1 h2 h3
    unfold enforceTokenBinding
    simp [h1, h2, h3]
  · intro h
    unfold enforceTokenBinding
    rcases h with h | h <;> simp [h]

/-- Concrete instantiation of `binding_enforcer_behaviour`: differing
fingerprints are rejected; a missing token claim lets the request through. -/
theorem binding_enforcer_behaviour_witness :
    enforceTokenBinding (some "fpa") (some (.str "fpb")) = .reject401 ∧
    enforceTokenBinding none (some (.str "fpb")) = .next :=
  ⟨(binding_enforcer_behaviour (some "fpa") (some (.str "fpb"))).1
      (by decide) (by decide) (by decide),
   (binding_enforcer_behaviour none (some (.str "fpb"))).2 (Or.inl (by decide))⟩


/-- The logout update succeeds when the hash's first match is unconsumed. -/
theorem consumeIfUnconsumed_isSome {s : Store} {h : String} {r : RefreshRecord}
    (hf : findOne s h = some r) (hc : r.consumed = false) :
    ∃ t, consumeIfUnconsumed s h = some t := by
  induction s with
  | nil => simp [findOne] at hf
  | cons a rest ih =>
    by_cases hah : a.tokenHash = h
    · by_cases hac : a.consumed
      · have har : a = r := by
          simpa [findOne, List.find?_cons_of_pos, hah] using hf
        rw [← har] at hc
        simp [hac] at hc
      · refine ⟨{ a with consumed := true } :: rest, ?_⟩
        simp [consumeIfUnconsumed, hah, hac]
    · have hf2 : findOne rest h = some r := by
        simpa [findOne, List.find?_cons_of_neg, hah] using hf
      obtain ⟨t, ht⟩ := ih hf2
      exact ⟨a :: t, by simp [consumeIfUnconsumed, hah, ht]⟩

/-- C7. Missing-fingerprint degradation: when no fingerprint is available,
the login route falls back to the literal string `"unknown"` and issuance
still succeeds, with `"unknown"` both in the access token's `fp` claim and in
the persisted record's `device` field; likewise the refresh route, rotating a
record issued with `"unknown"`, succeeds and records `"unknown"` again. -/
theorem missing_fingerprint_unknown
    (userId : String) (now : Nat) (entropy : String) (s : Store)
    (rt : String) (now2 : Nat) (e2 : String) (s2 : Store) (r : RefreshRecord)
    (h1 : userId ≠ "") (h2 : hashPresent s (hashToken entropy) = false)
    (hrt : isHex64 rt = true) (hr : findOne s2 (hashToken rt) = some r)
    (hrc : r.consumed = false) (hrd : r.device = "unknown")
    (hre : ¬ r.expiresAt < now2) (hru : r.user ≠ "")
    (hf2 : hashPresent (markConsumed s2 (hashToken rt)) (hashToken e2) = false) :
    loginIssue userId none none now entropy s =
      (.ok { accessToken := issuedAccess userId (.str "unknown") now, refreshToken := entropy },
       s ++ [issuedRecord userId (.str "unknown") now entropy]) ∧
    (issuedAccess userId (.str "unknown") now).fp = "unknown" ∧
    (issuedRecord userId (.str "unknown") now entropy).device = "unknown" ∧
    refreshHandler rt none now2 e2 s2 =
      ({ status := 200,
         body := some { accessToken := issuedAccess r.user (.str "unknown") now2,
                        refreshToken := e2 } },
       markConsumed s2 (hashToken rt) ++ [issuedRecord r.user (.str "unknown") now2 e2]) ∧
    (issuedAccess r.user (.str "unknown") now2).fp = "unknown" ∧
    (issuedRecord r.user (.str "unknown") now2 e2).device = "unknown" := by
  refine ⟨?_, rfl, rfl, ?_, rfl, rfl⟩
  · unfold loginIssue
    simpa using generateTokens_ok userId (.str "unknown") now entropy s h1 h2
  · unfold refreshHandler
    rw [if_neg (isHex64_ne_empty hrt)]
    rw [if_neg (by simp [hrt])]
    simp only [Option.getD_none]
    rw [rotate_ok hr hrc (by rw [hrd]; rfl) hre hru hf2]

/-- Concrete instantiation of `missing_fingerprint_unknown`: login and
refresh, both without any request fingerprint, issue with `"unknown"`. -/
theorem missing_fingerprint_unknown_witness :
    (loginIssue "u1" none none 10 "e1" []).1 =
      .ok { accessToken := issuedAccess "u1" (.str "unknown") 10, refreshToken := "e1" } ∧
    (issuedAccess "u1" (.str "unknown") 10).fp = "unknown" ∧
    (refreshHandler "aaaaaaaaaaaaaaaaaaaaaaaaaaaaaaaaaaaaaaaaaaaaaaaaaaaaaaaaaaaaaaaa"
      none 50 "e2"
      [⟨"u1", hashToken "aaaaaaaaaaaaaaaaaaaaaaaaaaaaaaaaaaaaaaaaaaaaaaaaaaaaaaaaaaaaaaaa",
        "unknown", 100, false⟩]).1.status = 200 := by
  obtain ⟨hl, hfp, _, hrz, _, _⟩ := missing_fingerprint_unknown "u1" 10 "e1" []
    "aaaaaaaaaaaaaaaaaaaaaaaaaaaaaaaaaaaaaaaaaaaaaaaaaaaaaaaaaaaaaaaa" 50 "e2"
    [⟨"u1", hashToken "aaaaaaaaaaaaaaaaaaaaaaaaaaaaaaaaaaaaaaaaaaaaaaaaaaaaaaaaaaaaaaaa",
      "unknown", 100, false⟩]
    ⟨"u1", hashToken "aaaaaaaaaaaaaaaaaaaaaaaaaaaaaaaaaaaaaaaaaaaaaaaaaaaaaaaaaaaaaaaa",
      "unknown", 100, false⟩
    (by decide) (by decide) (by decide) (by decide) (by decide) rfl (by decide)
    (by decide) (by decide)
  exact ⟨by rw [hl], hfp, by rw [hrz]⟩


/-- Lookup in a singleton store whose document carries the looked-up hash. -/
theorem findOne_singleton_self {r : RefreshRecord} {h : String}
    (hr : r.tokenHash = h) : findOne [r] h = some r := by
  simp [findOne, List.find?_cons_of_pos, hr]

/-- C10. Issue/rotate round-trip: `hashToken` is deterministic, the record
persisted by `generateTokens` carries exactly the hash of the raw refresh
token returned to the caller, and therefore an immediate rotation (and
logout) presenting that raw token with the same fingerprint locates that
exact record; while it is unconsumed and unexpired the rotation succeeds. -/
theorem issue_rotate_roundtrip
    (userId : String) (f : Fingerprint) (now : Nat) (entropy : String) (s : Store)
    (pair : TokenPair) (s' : Store) (now2 : Nat) (e2 : String)
    (hgen : generateTokens userId f now entropy s = (.ok pair, s'))
    (hexp : ¬ now + REFRESH_TTL < now2)
    (hf2 : hashPresent (markConsumed s' (hashToken pair.refreshToken)) (hashToken e2) = false)
    (hne : pair.refreshToken ≠ "") :
    (∀ a b : String, a = b → hashToken a = hashToken b) ∧
    (issuedRecord userId f now entropy).tokenHash = hashToken pair.refreshToken ∧
    findOne s' (hashToken pair.refreshToken) = some (issuedRecord userId f now entropy) ∧
    rotateRefreshToken pair.refreshToken f now2 e2 s' =
      (.ok { accessToken := issuedAccess userId f now2, refreshToken := e2 },
       markConsumed s' (hashToken pair.refreshToken) ++
         [issuedRecord userId f now2 e2]) ∧
    (logoutHandler pair.refreshToken s').1 = 200 := by
  have h1 : (generateTokens userId f now entropy s).1 = .ok pair := by rw [hgen]
  obtain ⟨hu, hpres, hpair, hsnd⟩ := generateTokens_ok_inv h1
  have hs' : s' = s ++ [issuedRecord userId f now entropy] := by
    rw [hgen] at hsnd; simpa using hsnd
  have hraw : pair.refreshToken = entropy := by rw [hpair]
  have hfind : findOne s' (hashToken pair.refreshToken) =
      some (issuedRecord userId f now entropy) := by
    rw [hs', hraw, findOne_append, hashPresent_false_iff.mp hpres]
    rw [findOne_singleton_self
      (show (issuedRecord userId f now entropy).tokenHash = hashToken entropy from rfl)]
    rfl
  refine ⟨fun a b hab => by rw [hab], by rw [hraw]; rfl, hfind, ?_, ?_⟩
  · rw [rotate_ok hfind rfl rfl (by simpa [issuedRecord] using hexp)
      (by simpa [issuedRecord] using hu) hf2]
    rfl
  · unfold logoutHandler
    rw [if_neg hne]
    obtain ⟨t, ht⟩ := consumeIfUnconsumed_isSome hfind rfl
    rw [ht]

/-- Concrete instantiation of `issue_rotate_roundtrip`: issue on the empty
store, then immediately rotate the returned raw token with the same
fingerprint. -/
theorem issue_rotate_roundtrip_witness :
    rotateRefreshToken "e1" (.str "dev") 20 "e2"
      [⟨"u1", hashToken "e1", "dev", 10 + REFRESH_TTL, false⟩] =
      (.ok { accessToken := issuedAccess "u1" (.str "dev") 20, refreshToken := "e2" },
       markConsumed [⟨"u1", hashToken "e1", "dev", 10 + REFRESH_TTL, false⟩] (hashToken "e1") ++
         [issuedRecord "u1" (.str "dev") 20 "e2"]) := by
  have hgen : generateTokens "u1" (.str "dev") 10 "e1" [] =
      (.ok ⟨⟨"u1", "dev", ISSUER, AUDIENCE, 10, 10 + ACCESS_TTL⟩, "e1"⟩,
       [⟨"u1", hashToken "e1", "dev", 10 + REFRESH_TTL, false⟩]) := by decide
  exact (issue_rotate_roundtrip "u1" (.str "dev") 10 "e1" [] _ _ 20 "e2" hgen
    (by decide) (by decide) (by decide)).2.2.2.1


/-- C2. Rotation outcome characterization: the `Invalid refresh token` error
occurs exactly when no record matches the hash, or the record is consumed, or
its stored device hash differs from the presented fingerprint; the distinct
`Refresh token expired` error occurs exactly when a matching, unconsumed,
device-matching record is past its expiry; otherwise the rotation succeeds
with a new pair; and an expired record is never successfully rotated. The two
hypotheses model the freshness of the new 256-bit random token and the
schema's `required` owner field. -/
theorem rotation_outcome_characterization
    (raw : String) (f : Fingerprint) (now : Nat) (entropy : String) (s : Store)
    (hfresh : hashPresent (markConsumed s (hashToken raw)) (hashToken entropy) = false)
    (huser : ∀ r, findOne s (hashToken raw) = some r → r.user ≠ "") :
    ((rotateRefreshToken raw f now entropy s).1 = .error .invalidToken ↔
      findOne s (hashToken raw) = none ∨
      ∃ r, findOne s (hashToken raw) = some r ∧
        (r.consumed = true ∨ r.device ≠ fpHash f)) ∧
    ((rotateRefreshToken raw f now entropy s).1 = .error .expired ↔
      ∃ r, findOne s (hashToken raw) = some r ∧ r.consumed = false ∧
        r.device = fpHash f ∧ r.expiresAt < now) ∧
    ((∃ p, (rotateRefreshToken raw f now entropy s).1 = .ok p) ↔
      ∃ r, findOne s (hashToken raw) = some r ∧ r.consumed = false ∧
        r.device = fpHash f ∧ ¬ r.expiresAt < now) ∧
    (∀ r, findOne s (hashToken raw) = some r → r.expiresAt < now →
      ∀ p, (rotateRefreshToken raw f now entropy s).1 ≠ .ok p) := by
  rcases hf : findOne s (hashToken raw) with _ | ex
  · have hres : (rotateRefreshToken raw f now entropy s).1 = .error .invalidToken := by
      unfold rotateRefreshToken
      simp [hf]
    refine ⟨?_, ?_, ?_, ?_⟩ <;> simp [hres, hf]
  · by_cases hc : ex.consumed
    · have hres : (rotateRefreshToken raw f now entropy s).1 = .error .invalidToken := by
        unfold rotateRefreshToken
        simp [hf, hc]
      refine ⟨?_, ?_, ?_, ?_⟩ <;> simp [hres, hf, hc]
    · by_cases hd : ex.device = fpHash f
      · by_cases he : ex.expiresAt < now
        · have hres : (rotateRefreshToken raw f now entropy s).1 = .error .expired := by
            unfold rotateRefreshToken
            simp [hf, hc, hd, he]
          refine ⟨?_, ?_, ?_, ?_⟩ <;> simp [hres, hf, hc, hd, he]
        · have hres : rotateRefreshToken raw f now entropy s =
              (.ok { accessToken := issuedAccess ex.user f now, refreshToken := entropy },
               markConsumed s (hashToken raw) ++ [issuedRecord ex.user f now entropy]) :=
            rotate_ok hf (by simpa using hc) hd he (huser ex hf) hfresh
          have hres1 : (rotateRefreshToken raw f now entropy s).1 =
              .ok { accessToken := issuedAccess ex.user f now, refreshToken := entropy } := by
            rw [hres]
          refine ⟨?_, ?_, ?_, ?_⟩ <;> simp [hres1, hf, hc, hd, he] <;> omega
      · have hres : (rotateRefreshToken raw f now entropy s).1 = .error .invalidToken := by
          unfold rotateRefreshToken
          simp [hf, hc, hd]
        refine ⟨?_, ?_, ?_, ?_⟩ <;> simp [hres, hf, hc, hd]

/-- Concrete instantiation of `rotation_outcome_characterization`: on a store
holding one fresh record the success case of the characterization applies. -/
theorem rotation_outcome_characterization_witness :
    ∃ p, (rotateRefreshToken "tok" (.str "dev") 50 "e1"
      [⟨"u1", hashToken "tok", "dev", 100, false⟩]).1 = .ok p := by
  have hchar := rotation_outcome_characterization "tok" (.str "dev") 50 "e1"
    [⟨"u1", hashToken "tok", "dev", 100, false⟩]
    (by decide)
    (by
      intro r hr
      have h0 : findOne [⟨"u1", hashToken "tok", "dev", 100, false⟩] (hashToken "tok") =
          some ⟨"u1", hashToken "tok", "dev", 100, false⟩ := by decide
      rw [h0] at hr
      have h1 : (⟨"u1", hashToken "tok", "dev", 100, false⟩ : RefreshRecord) = r := by
        simpa using hr
      rw [← h1]
      decide)
  refine hchar.2.2.1.mpr ⟨⟨"u1", hashToken "tok", "dev", 100, false⟩, by decide, rfl, rfl, by decide⟩


/-- C6, counterexample to the claim as stated: a well-formed (64-hex) but
unknown refresh token is rejected by the refresh route with status 400, not
with the 401 the claim asserts (`src/api/routes/auth.js` maps both the
`Invalid refresh token` and the `expired` rotation errors to 400; the
repository's own test expects 400 on replay). -/
theorem refresh_status_claim_counterexample :
    (refreshHandler "aaaaaaaaaaaaaaaaaaaaaaaaaaaaaaaaaaaaaaaaaaaaaaaaaaaaaaaaaaaaaaaa"
        none 50 "e1" []).1.status = 400 ∧
    ¬ (refreshHandler "aaaaaaaaaaaaaaaaaaaaaaaaaaaaaaaaaaaaaaaaaaaaaaaaaaaaaaaaaaaaaaaa"
        none 50 "e1" []).1.status = 401 := by decide

/-- C6, amended. Error statuses at the refresh boundary: a malformed token
(missing, or not 64 hex characters) is rejected with 400 before any store
lookup — the response does not depend on the store and the store is untouched
— and a well-formed token whose rotation fails with the invalid-token or
expired condition is also rejected with 400 (not 401); only unexpected
issuance faults surface as 500. -/
theorem refresh_status_classes (rt : String) (reqFp : Option Fingerprint)
    (now : Nat) (entropy : String) (s : Store) :
    (isHex64 rt = false →
      (refreshHandler rt reqFp now entropy s).1.status = 400 ∧
      (refreshHandler rt reqFp now entropy s).2 = s ∧
      ∀ s2 : Store, (refreshHandler rt reqFp now entropy s).1 =
        (refreshHandler rt reqFp now entropy s2).1) ∧
    (∀ err, isHex64 rt = true →
      (rotateRefreshToken rt (reqFp.getD (.str "unknown")) now entropy s).1 = .error err →
      err = .invalidToken ∨ err = .expired →
      (refreshHandler rt reqFp now entropy s).1.status = 400) := by
  constructor
  · intro hbad
    by_cases h0 : rt = ""
    · refine ⟨?_, ?_, ?_⟩ <;> simp [refreshHandler, h0]
    · refine ⟨?_, ?_, ?_⟩ <;> simp [refreshHandler, h0, hbad]
  · intro err hgood hrot hcase
    have h0 : rt ≠ "" := isHex64_ne_empty hgood
    unfold refreshHandler
    rw [if_neg h0, if_neg (by simp [hgood])]
    rcases hz : rotateRefreshToken rt (reqFp.getD (.str "unknown")) now entropy s
      with ⟨res, s2⟩
    rw [hz] at hrot
    simp only at hrot
    subst hrot
    rcases hcase with h | h <;> subst h <;> simp [hz]

/-- Concrete instantiation of `refresh_status_classes`: a malformed token and
a well-formed unknown token both yield 400. -/
theorem refresh_status_classes_witness :
    (refreshHandler "zzz" none 1 "e1" []).1.status = 400 ∧
    (refreshHandler "bbbbbbbbbbbbbbbbbbbbbbbbbbbbbbbbbbbbbbbbbbbbbbbbbbbbbbbbbbbbbbbb"
        none 1 "e1" []).1.status = 400 :=
  ⟨((refresh_status_classes "zzz" none 1 "e1" []).1 (by decide)).1,
   (refresh_status_classes
      "bbbbbbbbbbbbbbbbbbbbbbbbbbbbbbbbbbbbbbbbbbbbbbbbbbbbbbbbbbbbbbbb"
      none 1 "e1" []).2 .invalidToken (by decide) (by decide) (Or.inl rfl)⟩


/-- C9. The repository's rotation marks `consumed` with a plain
`findOne` + `existing.save()` (a read followed by a write), not with the
atomic conditional write (`findOneAndUpdate({tokenHash, consumed:false},...)`)
that the logout route uses and the claim asserts. Consequently there is an
interleaving of two concurrent `rotate` calls presenting the same raw token
in which both observe `consumed = false` and both finish successfully: run
both lookups before either write. -/
theorem rotation_race_both_succeed :
    ∃ final : RaceState,
      Relation.ReflTransGen
        (RaceStep "tok" (.str "dev") 50 "ea" "eb")
        ⟨[⟨"u1", hashToken "tok", "dev", 100, false⟩], .start, .start⟩ final ∧
      final.pcA = .finished true ∧ final.pcB = .finished true := by
  have h1 : RaceStep "tok" (.str "dev") 50 "ea" "eb"
      ⟨[⟨"u1", hashToken "tok", "dev", 100, false⟩], .start, .start⟩
      ⟨[⟨"u1", hashToken "tok", "dev", 100, false⟩], .validated "u1", .start⟩ := by
    have e : (⟨[⟨"u1", hashToken "tok", "dev", 100, false⟩], .validated "u1", .start⟩ : RaceState) =
        { (⟨[⟨"u1", hashToken "tok", "dev", 100, false⟩], .start, .start⟩ : RaceState) with
          pcA := rotValidate "tok" (.str "dev") 50
            (⟨[⟨"u1", hashToken "tok", "dev", 100, false⟩], .start, .start⟩ : RaceState).store } := by
      decide
    rw [e]
    exact RaceStep.readA _ rfl
  have h2 : RaceStep "tok" (.str "dev") 50 "ea" "eb"
      ⟨[⟨"u1", hashToken "tok", "dev", 100, false⟩], .validated "u1", .start⟩
      ⟨[⟨"u1", hashToken "tok", "dev", 100, false⟩], .validated "u1", .validated "u1"⟩ := by
    have e : (⟨[⟨"u1", hashToken "tok", "dev", 100, false⟩], .validated "u1", .validated "u1"⟩ : RaceState) =
        { (⟨[⟨"u1", hashToken "tok", "dev", 100, false⟩], .validated "u1", .start⟩ : RaceState) with
          pcB := rotValidate "tok" (.str "dev") 50
            (⟨[⟨"u1", hashToken "tok", "dev", 100, false⟩], .validated "u1", .start⟩ : RaceState).store } := by
      decide
    rw [e]
    exact RaceStep.readB _ rfl
  have h3 : RaceStep "tok" (.str "dev") 50 "ea" "eb"
      ⟨[⟨"u1", hashToken "tok", "dev", 100, false⟩], .validated "u1", .validated "u1"⟩
      ⟨[⟨"u1", hashToken "tok", "dev", 100, true⟩], .marked "u1", .validated "u1"⟩ := by
    have e : (⟨[⟨"u1", hashToken "tok", "dev", 100, true⟩], .marked "u1", .validated "u1"⟩ : RaceState) =
        { (⟨[⟨"u1", hashToken "tok", "dev", 100, false⟩], .validated "u1", .validated "u1"⟩ : RaceState) with
          store := markConsumed
            (⟨[⟨"u1", hashToken "tok", "dev", 100, false⟩], .validated "u1", .validated "u1"⟩ : RaceState).store
            (hashToken "tok"),
          pcA := .marked "u1" } := by
      decide
    rw [e]
    exact RaceStep.writeA _ "u1" rfl
  have h4 : RaceStep "tok" (.str "dev") 50 "ea" "eb"
      ⟨[⟨"u1", hashToken "tok", "dev", 100, true⟩], .marked "u1", .validated "u1"⟩
      ⟨[⟨"u1", hashToken "tok", "dev", 100, true⟩,
        ⟨"u1", hashToken "ea", "dev", 50 + REFRESH_TTL, false⟩], .finished true, .validated "u1"⟩ := by
    have e : (⟨[⟨"u1", hashToken "tok", "dev", 100, true⟩,
        ⟨"u1", hashToken "ea", "dev", 50 + REFRESH_TTL, false⟩], .finished true, .validated "u1"⟩ : RaceState) =
        { (⟨[⟨"u1", hashToken "tok", "dev", 100, true⟩], .marked "u1", .validated "u1"⟩ : RaceState) with
          store := (generateTokens "u1" (.str "dev") 50 "ea"
            (⟨[⟨"u1", hashToken "tok", "dev", 100, true⟩], .marked "u1", .validated "u1"⟩ : RaceState).store).2,
          pcA := .finished (generateTokens "u1" (.str "dev") 50 "ea"
            (⟨[⟨"u1", hashToken "tok", "dev", 100, true⟩], .marked "u1", .validated "u1"⟩ : RaceState).store).1.toBool } := by
      decide
    rw [e]
    exact RaceStep.issueA _ "u1" rfl
  have h5 : RaceStep "tok" (.str "dev") 50 "ea" "eb"
      ⟨[⟨"u1", hashToken "tok", "dev", 100, true⟩,
        ⟨"u1", hashToken "ea", "dev", 50 + REFRESH_TTL, false⟩], .finished true, .validated "u1"⟩
      ⟨[⟨"u1", hashToken "tok", "dev", 100, true⟩,
        ⟨"u1", hashToken "ea", "dev", 50 + REFRESH_TTL, false⟩], .finished true, .marked "u1"⟩ := by
    have e : (⟨[⟨"u1", hashToken "tok", "dev", 100, true⟩,
        ⟨"u1", hashToken "ea", "dev", 50 + REFRESH_TTL, false⟩], .finished true, .marked "u1"⟩ : RaceState) =
        { (⟨[⟨"u1", hashToken "tok", "dev", 100, true⟩,
            ⟨"u1", hashToken "ea", "dev", 50 + REFRESH_TTL, false⟩], .finished true, .validated "u1"⟩ : RaceState) with
          store := markConsumed
            (⟨[⟨"u1", hashToken "tok", "dev", 100, true⟩,
               ⟨"u1", hashToken "ea", "dev", 50 + REFRESH_TTL, false⟩], .finished true, .validated "u1"⟩ : RaceState).store
            (hashToken "tok"),
          pcB := .marked "u1" } := by
      decide
    rw [e]
    exact RaceStep.writeB _ "u1" rfl
  have h6 : RaceStep "tok" (.str "dev") 50 "ea" "eb"
      ⟨[⟨"u1", hashToken "tok", "dev", 100, true⟩,
        ⟨"u1", hashToken "ea", "dev", 50 + REFRESH_TTL, false⟩], .finished true, .marked "u1"⟩
      ⟨[⟨"u1", hashToken "tok", "dev", 100, true⟩,
        ⟨"u1", hashToken "ea", "dev", 50 + REFRESH_TTL, false⟩,
        ⟨"u1", hashToken "eb", "dev", 50 + REFRESH_TTL, false⟩], .finished true, .finished true⟩ := by
    have e : (⟨[⟨"u1", hashToken "tok", "dev", 100, true⟩,
        ⟨"u1", hashToken "ea", "dev", 50 + REFRESH_TTL, false⟩,
        ⟨"u1", hashToken "eb", "dev", 50 + REFRESH_TTL, false⟩], .finished true, .finished true⟩ : RaceState) =
        { (⟨[⟨"u1", hashToken "tok", "dev", 100, true⟩,
            ⟨"u1", hashToken "ea", "dev", 50 + REFRESH_TTL, false⟩], .finished true, .marked "u1"⟩ : RaceState) with
          store := (generateTokens "u1" (.str "dev") 50 "eb"
            (⟨[⟨"u1", hashToken "tok", "dev", 100, true⟩,
               ⟨"u1", hashToken "ea", "dev", 50 + REFRESH_TTL, false⟩], .finished true, .marked "u1"⟩ : RaceState).store).2,
          pcB := .finished (generateTokens "u1" (.str "dev") 50 "eb"
            (⟨[⟨"u1", hashToken "tok", "dev", 100, true⟩,
               ⟨"u1", hashToken "ea", "dev", 50 + REFRESH_TTL, false⟩], .finished true, .marked "u1"⟩ : RaceState).store).1.toBool } := by
      decide
    rw [e]
    exact RaceStep.issueB _ "u1" rfl
  exact ⟨_, .head h1 (.head h2 (.head h3 (.head h4 (.head h5 (.head h6 .refl))))), rfl, rfl⟩

end CSBrain
